import Mathlib

/-!
Verification development for the showman code-block execution engine
(src/showman/executer.py).  The Python source is shallowly embedded:
pure helpers become Lean functions, the mutable pieces of state
(the module-level Python namespace, the class-level executor registry,
spawned sessions and temporary directories, the cache file) are threaded
explicitly, and the external collaborators (the typst query tool, the
CPython parser, spawned subprocesses) are uninterpreted oracle functions
carried in the system state.
-/

/-! ## Association lists (Python dict operations)

Python dicts preserve insertion order; item assignment replaces the value
of an existing key in place and appends a fresh key at the end.  The cache,
the executor registry and the in-memory namespace are all dicts in the
source, so they are embedded as ordered association lists with exactly
those operations. -/

/-- Dict lookup: first binding of the key, if any. -/
def lookupA {κ α : Type} [DecidableEq κ] : List (κ × α) → κ → Option α
  | [], _ => Option.none
  | (k, v) :: rest, key => if k = key then some v else lookupA rest key

/-- Dict item assignment: replace the binding of the key in place,
otherwise append a fresh binding at the end. -/
def updA {κ α : Type} [DecidableEq κ] : List (κ × α) → κ → α → List (κ × α)
  | [], key, v => [(key, v)]
  | (k, w) :: rest, key, v =>
    if k = key then (key, v) :: rest else (k, w) :: updA rest key v

/-- Modify the value bound to a key in place; bindings of other keys are
kept untouched, and a missing key leaves the list unchanged. -/
def modifyA {κ α : Type} [DecidableEq κ] (f : α → α) : List (κ × α) → κ → List (κ × α)
  | [], _ => []
  | (k, w) :: rest, key =>
    if k = key then (k, f w) :: rest else (k, w) :: modifyA f rest key

/-- Option-valued traversal of a list, failing as soon as one element fails. -/
def optMapM {α β : Type} (f : α → Option β) : List α → Option (List β)
  | [] => some []
  | a :: l =>
    match f a, optMapM f l with
    | some b, some bs => some (b :: bs)
    | _, _ => Option.none

/-! ## Paths

Documents and the workspace root reach the runner as already-resolved
absolute paths (the source calls Path.resolve on both).  An absolute path
is embedded as its list of components from the filesystem root; the
pathlib facts the source relies on become list facts:
`ws in file.parents` is `ws` being a strict prefix of `file`, and
`file.relative_to(ws).as_posix()` joins the remaining components with
slashes. -/

abbrev AbsPath := List String

/-- Render an absolute path the way str(Path) does. -/
def renderPath (p : AbsPath) : String := "/" ++ String.intercalate "/" p

/-! ## JSON documents

The cache file is read and written with json.load / json.dump.  The text
layer belongs to the Python standard library; the file is embedded as the
JSON document it holds. -/

inductive Json where
  | null
  | int (n : Int)
  | str (s : String)
  | arr (xs : List Json)
  | obj (fields : List (String × Json))

/-! ## Python values

The values the interpreted executor can hand back: None, integers,
strings, and the two-element list [stdout, value] built by the last
branch of PythonExecuter._resolve_return_value. -/

inductive PyValue where
  | none
  | int (n : Int)
  | str (s : String)
  | pairOut (out : String) (v : PyValue)
  deriving DecidableEq

/-- Stringification as performed by str() on the embedded values. -/
def pyStr : PyValue → String
  | PyValue.none => "None"
  | PyValue.int n => toString n
  | PyValue.str s => s
  | PyValue.pairOut s v => "[" ++ s ++ ", " ++ pyStr v ++ "]"

def encodeVal : PyValue → Json
  | PyValue.none => Json.null
  | PyValue.int n => Json.int n
  | PyValue.str s => Json.str s
  | PyValue.pairOut s v => Json.arr [Json.str s, encodeVal v]

def decodeVal : Json → Option PyValue
  | Json.null => some PyValue.none
  | Json.int n => some (PyValue.int n)
  | Json.str s => some (PyValue.str s)
  | Json.arr [Json.str s, j] => (decodeVal j).map (PyValue.pairOut s)
  | _ => Option.none

/-! ## The cache data model

Top level: POSIX-style document-relative path to per-label map; each label
maps to the ordered list of captured outputs, one per block. -/

abbrev LabelMap := List (String × List PyValue)

abbrev Cache := List (String × LabelMap)

def encodeOutputs (outs : List PyValue) : Json := Json.arr (outs.map encodeVal)

def decodeOutputs : Json → Option (List PyValue)
  | Json.arr xs => optMapM decodeVal xs
  | _ => Option.none

def encodeLabelMap (m : LabelMap) : Json :=
  Json.obj (m.map fun p => (p.1, encodeOutputs p.2))

def decodeLabelMap : Json → Option LabelMap
  | Json.obj fs => optMapM (fun p => (decodeOutputs p.2).map fun outs => (p.1, outs)) fs
  | _ => Option.none

def encodeCache (c : Cache) : Json :=
  Json.obj (c.map fun p => (p.1, encodeLabelMap p.2))

def decodeCache : Json → Option Cache
  | Json.obj fs => optMapM (fun p => (decodeLabelMap p.2).map fun m => (p.1, m)) fs
  | _ => Option.none

/-! ## The interpreted Python fragment

PythonExecuter hands the block text to ast.parse, then executes statements
with exec and evaluates a trailing expression with eval, all against the
module-level globals() namespace.  The fragment of Python that the
embedding interprets: literals, variable references, addition, single
argument print, assignment, pass, and an expression that raises.  The
namespace is an explicit environment threaded through every call (the
source shares one mutable globals() dict across all calls of the single
class-level PythonExecuter instance). -/

abbrev Env := List (String × PyValue)

inductive PyExpr where
  | lit (v : PyValue)
  | var (x : String)
  | add (a b : PyExpr)
  | printE (e : PyExpr)
  | raiseE (msg : String)
  deriving DecidableEq

inductive PyStmt where
  | exprS (e : PyExpr)
  | assign (x : String) (e : PyExpr)
  | passS
  deriving DecidableEq

/-- Addition as CPython dispatches it on the embedded values. -/
def addVal : PyValue → PyValue → Except String PyValue
  | PyValue.int a, PyValue.int b => Except.ok (PyValue.int (a + b))
  | PyValue.str a, PyValue.str b => Except.ok (PyValue.str (a ++ b))
  | _, _ => Except.error "unsupported operand type(s) for +"

/-- Expression evaluation: the text written to stdout so far, and either
the value or the message of the exception that was raised. -/
def evalExpr : Env → PyExpr → String × Except String PyValue
  | _, PyExpr.lit v => ("", Except.ok v)
  | env, PyExpr.var x =>
    match lookupA env x with
    | some v => ("", Except.ok v)
    | Option.none => ("", Except.error ("name " ++ x ++ " is not defined"))
  | env, PyExpr.add a b =>
    match evalExpr env a with
    | (o1, Except.error e) => (o1, Except.error e)
    | (o1, Except.ok va) =>
      match evalExpr env b with
      | (o2, Except.error e) => (o1 ++ o2, Except.error e)
      | (o2, Except.ok vb) => (o1 ++ o2, addVal va vb)
  | env, PyExpr.printE e =>
    match evalExpr env e with
    | (o, Except.error err) => (o, Except.error err)
    | (o, Except.ok v) => (o ++ pyStr v ++ "\n", Except.ok PyValue.none)
  | _, PyExpr.raiseE msg => ("", Except.error msg)

/-- One statement: the updated namespace, the stdout text produced, and
whether an exception was raised.  A failed assignment leaves the
namespace as it was at the point of failure. -/
def execStmt (env : Env) : PyStmt → Env × String × Except String Unit
  | PyStmt.exprS e =>
    match evalExpr env e with
    | (o, Except.error err) => (env, o, Except.error err)
    | (o, Except.ok _) => (env, o, Except.ok ())
  | PyStmt.assign x e =>
    match evalExpr env e with
    | (o, Except.error err) => (env, o, Except.error err)
    | (o, Except.ok v) => (updA env x v, o, Except.ok ())
  | PyStmt.passS => (env, "", Except.ok ())

/-- Statement sequence, stopping at the first exception; the namespace
mutations made before the failure persist, as with exec. -/
def execStmts (env : Env) : List PyStmt → Env × String × Except String Unit
  | [] => (env, "", Except.ok ())
  | s :: rest =>
    match execStmt env s with
    | (env1, o1, Except.error err) => (env1, o1, Except.error err)
    | (env1, o1, Except.ok ()) =>
      match execStmts env1 rest with
      | (env2, o2, res) => (env2, o1 ++ o2, res)

/-- What ast.parse makes of a source string: either a SyntaxError with
its message, or the parsed statement list (possibly empty). -/
inductive PySource where
  | parseError (msg : String)
  | parsed (body : List PyStmt)
  deriving DecidableEq

namespace PythonExecuter

/-- Embedding of PythonExecuter.exec_and_maybe_eval_last_line.  Returns
the namespace after the call, the stdout text produced, and the Python
value the method returns: the trailing expression value, None when the
body does not end in a standalone expression, or the string a caught
SyntaxError or other exception was converted to.  Indexing body[-1] of an
empty body raises IndexError, which the except clause turns into a
string as well. -/
def exec_and_maybe_eval_last_line (env : Env) : PySource → Env × String × PyValue
  | PySource.parseError msg => (env, "", PyValue.str ("SyntaxError: " ++ msg))
  | PySource.parsed body =>
    match body.getLast? with
    | Option.none => (env, "", PyValue.str "Error: list index out of range")
    | some (PyStmt.exprS e) =>
      match execStmts env body.dropLast with
      | (env1, o1, Except.error err) => (env1, o1, PyValue.str ("Error: " ++ err))
      | (env1, o1, Except.ok ()) =>
        match evalExpr env1 e with
        | (o2, Except.error err) => (env1, o1 ++ o2, PyValue.str ("Error: " ++ err))
        | (o2, Except.ok v) => (env1, o1 ++ o2, v)
    | some _ =>
      match execStmts env body with
      | (env1, o1, Except.error err) => (env1, o1, PyValue.str ("Error: " ++ err))
      | (env1, o1, Except.ok ()) => (env1, o1, PyValue.none)

/-- Embedding of PythonExecuter._resolve_return_value. -/
def resolve_return_value (stdout : String) (result : PyValue) : PyValue :=
  if result = PyValue.none then PyValue.str stdout
  else if stdout = "" then result
  else
    match result with
    | PyValue.str s => PyValue.str (stdout ++ "\n" ++ s)
    | r => PyValue.pairOut stdout r

/-- Embedding of PythonExecuter.__call__: run the source with stdout
redirected into a buffer, stringify a non-None result, and combine the
two with _resolve_return_value. -/
def call (env : Env) (src : PySource) : Env × PyValue :=
  match exec_and_maybe_eval_last_line env src with
  | (env1, printed, result) =>
    let result1 := if result = PyValue.none then result else PyValue.str (pyStr result)
    (env1, resolve_return_value printed result1)

end PythonExecuter

/-! ## Sessions and the process world

ShellExecuter owns at most one spawned interactive process and one
temporary build directory.  Their identities are natural numbers drawn
from a counter; the world records which directories exist and, for each
process, whether it is still alive and what output is buffered but not
yet read.  pexpect read_nonblocking on an alive process with no pending
data raises TIMEOUT; on a terminated process with nothing buffered it
raises EOF; Path.rmdir on a missing directory raises FileNotFoundError. -/

structure ProcState where
  alive : Bool
  buffer : List String
  deriving DecidableEq

structure World where
  nextId : Nat
  dirs : List Nat
  procs : List (Nat × ProcState)
  deriving DecidableEq

def World.kill (w : World) (pid : Nat) : World :=
  { w with procs := modifyA (fun ps => { ps with alive := false }) w.procs pid }

def World.read_nonblocking (w : World) (pid : Nat) : Except String (World × String) :=
  match lookupA w.procs pid with
  | Option.none => Except.error "ExceptionPexpect: process handle is gone"
  | some ps =>
    match ps.buffer with
    | out :: rest =>
      Except.ok ({ w with procs := modifyA (fun q => { q with buffer := rest }) w.procs pid }, out)
    | [] =>
      if ps.alive then Except.error "TIMEOUT: Timeout exceeded."
      else Except.error "EOF: End Of File (EOF)."

def World.rmdir (w : World) (d : Nat) : Except String World :=
  if d ∈ w.dirs then Except.ok { w with dirs := w.dirs.erase d }
  else Except.error "FileNotFoundError: No such file or directory"

/-- Per-language configuration entry, as ShellExecuter reads it: a repl
flag, the invocation command, an optional prompt pattern, a preamble, a
timeout, an optional one-shot file name, and optional input and output
transforms (the source evaluates these as configured expressions; they
are embedded as opaque text rewrites). -/
structure ShellConfig where
  repl : Bool
  command : String
  prompt : Option String
  preamble : String
  timeout : Nat
  filename : Option String
  input_transform : Option (String → String)
  output_transform : Option (String → String)

structure ShellExecuter where
  language : String
  config : ShellConfig
  repl : Option Nat
  build_dir : Option Nat

/-- Embedding of ShellExecuter.cleanup: signal the child, drain one short
read, then remove the temporary directory.  The method neither guards
against a dead process nor clears its fields, so every exception of the
drain read or of rmdir propagates to the caller. -/
def ShellExecuter.cleanup (se : ShellExecuter) (w : World) : Except String World := do
  let w1 ←
    match se.repl with
    | Option.none => pure w
    | some pid => do
      let wk := World.kill w pid
      let r ← wk.read_nonblocking pid
      pure r.1
  match se.build_dir with
  | Option.none => pure w1
  | some d => w1.rmdir d

/-- A language executor: the built-in in-process Python interpreter, or a
configured shell executor. -/
inductive Executer where
  | python
  | shell (se : ShellExecuter)

def Executer.sessionId : Executer → Option Nat
  | Executer.python => Option.none
  | Executer.shell se => se.repl

/-! ## The system state

Everything that outlives a single CodeRunner instance: the class-level
language_executer_map (a class attribute in the source, hence shared by
every CodeRunner in the process), the module-level Python namespace, the
process world, the current working directory, the filesystem holding the
cache file, and the oracles for the external collaborators: the typst
query invocation (command string to parsed array of strings), the CPython
parser, the response of an interactive session to a command, and a
one-shot subprocess invocation. -/

structure Sys where
  executer_map : List (String × Executer)
  pyEnv : Env
  world : World
  cwd : AbsPath
  fs : List (AbsPath × Json)
  typstQuery : String → Except String (List String)
  pyParse : String → PySource
  replRespond : Nat → String → String
  runStandalone : ShellConfig → String → Except String String

/-- Embedding of ShellExecuter.__init__ together with _init_repl: when the
configuration asks for a repl, allocate a fresh temporary directory and
spawn a fresh process (the preamble, if any, is sent to the new session
before any user code; its output is discarded). -/
def ShellExecuter.create (sys : Sys) (lang : String) (cfg : ShellConfig) : Sys × ShellExecuter :=
  if cfg.repl then
    let d := sys.world.nextId
    let p := sys.world.nextId + 1
    let w : World :=
      { nextId := sys.world.nextId + 2
        dirs := d :: sys.world.dirs
        procs := (p, { alive := true, buffer := [] }) :: sys.world.procs }
    ({ sys with world := w },
     { language := lang, config := cfg, repl := some p, build_dir := some d })
  else
    (sys, { language := lang, config := cfg, repl := Option.none, build_dir := Option.none })

def applyOutputTransform (cfg : ShellConfig) (out : String) : String :=
  match cfg.output_transform with
  | some f => f out
  | Option.none => out

/-- Embedding of ShellExecuter.__call__: append a newline, apply the
input transform, run either the one-shot command (whose subprocess
failure propagates) or the interactive session, then apply the output
transform. -/
def ShellExecuter.call (se : ShellExecuter) (sys : Sys) (code : String) :
    Sys × Except String PyValue :=
  let code1 := code ++ "\n"
  let code2 :=
    match se.config.input_transform with
    | some f => f code1
    | Option.none => code1
  match se.repl with
  | Option.none =>
    match sys.runStandalone se.config code2 with
    | Except.error e => (sys, Except.error e)
    | Except.ok out => (sys, Except.ok (PyValue.str (applyOutputTransform se.config out)))
  | some sid =>
    (sys, Except.ok (PyValue.str (applyOutputTransform se.config (sys.replRespond sid code2))))

/-- Dispatch one block to an executor.  The Python executor parses the
block text and runs it against the shared module namespace; it never
raises.  A shell executor may propagate a subprocess failure. -/
def applyExecuter (sys : Sys) (ex : Executer) (code : String) : Sys × Except String PyValue :=
  match ex with
  | Executer.python =>
    match PythonExecuter.call sys.pyEnv (sys.pyParse code) with
    | (env1, v) => ({ sys with pyEnv := env1 }, Except.ok v)
  | Executer.shell se => se.call sys code

/-! ## CodeRunner -/

structure CodeRunner where
  config : List (String × ShellConfig)
  workspace_dir : AbsPath
  workspace_cache : Cache

instance : Inhabited CodeRunner := ⟨{ config := [], workspace_dir := [], workspace_cache := [] }⟩

def cacheFilePath (ws : AbsPath) : AbsPath := ws ++ [".coderunner.json"]

/-- Embedding of CodeRunner.__init__: load the cache file eagerly; if it
does not exist, start from an empty cache and create the file holding an
empty JSON object.  A file whose JSON is not a cache-shaped object is a
construction error. -/
def CodeRunner.init (sys : Sys) (workspace_dir : AbsPath) (config : List (String × ShellConfig)) :
    Except String (CodeRunner × Sys) :=
  match lookupA sys.fs (cacheFilePath workspace_dir) with
  | Option.none =>
    Except.ok
      ({ config := config, workspace_dir := workspace_dir, workspace_cache := [] },
       { sys with fs := updA sys.fs (cacheFilePath workspace_dir) (Json.obj []) })
  | some j =>
    match decodeCache j with
    | some c =>
      Except.ok ({ config := config, workspace_dir := workspace_dir, workspace_cache := c }, sys)
    | Option.none => Except.error "cache file does not hold a cache-shaped JSON object"

/-- Embedding of CodeRunner.get_cache_key: the document must lie strictly
inside the workspace root, and the key is the POSIX-style relative path. -/
def CodeRunner.get_cache_key (r : CodeRunner) (file : AbsPath) : Except String String :=
  if r.workspace_dir <+: file ∧ r.workspace_dir ≠ file then
    Except.ok (String.intercalate "/" (file.drop r.workspace_dir.length))
  else
    Except.error
      ("File " ++ renderPath file ++ " is not in workspace " ++ renderPath r.workspace_dir)

/-- Embedding of CodeRunner.get_cache_value with return_key=True: reading
the entry of an unseen path first creates an empty entry for it; a copy
of the entry and the key are handed back. -/
def CodeRunner.get_cache_value (r : CodeRunner) (file : AbsPath) :
    Except String (CodeRunner × LabelMap × String) :=
  match r.get_cache_key file with
  | Except.error e => Except.error e
  | Except.ok key =>
    let r1 :=
      if (lookupA r.workspace_cache key).isSome then r
      else { r with workspace_cache := r.workspace_cache ++ [(key, [])] }
    Except.ok (r1, (lookupA r1.workspace_cache key).getD [], key)

/-- Embedding of CodeRunner.update_cache: bind the full output list to
the label under the document key, replacing whatever was there. -/
def CodeRunner.update_cache (r : CodeRunner) (file : AbsPath) (label : String)
    (outputs : List PyValue) : Except String CodeRunner :=
  match r.get_cache_value file with
  | Except.error e => Except.error e
  | Except.ok (r1, _file_cache, key) =>
    Except.ok
      { r1 with workspace_cache := modifyA (fun m => updA m label outputs) r1.workspace_cache key }

/-- Embedding of CodeRunner.save_cache: serialize the whole in-memory
mapping over the cache file, overwriting prior contents. -/
def CodeRunner.save_cache (r : CodeRunner) (sys : Sys) : Sys :=
  { sys with fs := updA sys.fs (cacheFilePath r.workspace_dir) (encodeCache r.workspace_cache) }

/-- The command string CodeRunner.get_labeled_blocks hands to the shell.
The source computes the root from os.getcwd(), not from the workspace
directory the runner was constructed with. -/
def buildQueryCmd (file : AbsPath) (label : String) (root : AbsPath) : String :=
  "typst query \"" ++ renderPath file ++ "\" \"<" ++ label ++ ">\"" ++
    " --field value --format json --root " ++ renderPath root

/-- Embedding of CodeRunner.get_labeled_blocks: run the query command and
parse its JSON array-of-strings output.  The runner argument is unused
because the source derives the query root from the process working
directory rather than from self.workspace_dir. -/
def CodeRunner.get_labeled_blocks (r : CodeRunner) (sys : Sys) (file : AbsPath) (label : String) :
    Except String (List String) :=
  sys.typstQuery (buildQueryCmd file label sys.cwd)

/-! ## Run orchestration

The observable steps of a run are recorded in a trace: each external query
invocation, the start of each block execution, each cache update and the
final save. -/

inductive Event where
  | retrieval (cmd : String)
  | execBlock (lang : String) (idx : Nat)
  | cacheUpdate (file : AbsPath) (label : String)
  | save
  deriving DecidableEq

/-- The block loop of exec_blocks_and_capture_outputs: look the executor
up in the shared registry for every block, run the block, and collect its
output; a raised executor error propagates and stops the loop. -/
def execLoop (lang : String) : Sys → Nat → List String → Sys × List Event × Except String (List PyValue)
  | sys, _, [] => (sys, [], Except.ok [])
  | sys, idx, code :: rest =>
    match lookupA sys.executer_map lang with
    | Option.none => (sys, [Event.execBlock lang idx], Except.error ("KeyError: " ++ lang))
    | some ex =>
      match applyExecuter sys ex code with
      | (sys1, Except.error e) => (sys1, [Event.execBlock lang idx], Except.error e)
      | (sys1, Except.ok v) =>
        match execLoop lang sys1 (idx + 1) rest with
        | (sys2, evs, Except.error e) => (sys2, Event.execBlock lang idx :: evs, Except.error e)
        | (sys2, evs, Except.ok vs) => (sys2, Event.execBlock lang idx :: evs, Except.ok (v :: vs))

/-- Embedding of CodeRunner.exec_blocks_and_capture_outputs: an unknown
label with no configuration entry raises before any block runs; a label
known only from the configuration gets a ShellExecuter constructed and
registered in the class-level map; then every block is executed in order
against the registered executor. -/
def CodeRunner.exec_blocks_and_capture_outputs (r : CodeRunner) (sys : Sys)
    (blocks : List String) (lang : String) : Sys × List Event × Except String (List PyValue) :=
  if (lookupA sys.executer_map lang).isNone && (lookupA r.config lang).isNone then
    (sys, [], Except.error ("Language `" ++ lang ++ "` not supported"))
  else
    let sys1 :=
      if (lookupA sys.executer_map lang).isNone then
        match lookupA r.config lang with
        | some cfg =>
          match ShellExecuter.create sys lang cfg with
          | (s, se) => { s with executer_map := updA s.executer_map lang (Executer.shell se) }
        | Option.none => sys
      else sys
    execLoop lang sys1 0 blocks

/-- The per-label loop of CodeRunner.run: query the blocks of each label
in list order; a label with no blocks is skipped entirely; otherwise the
blocks are executed and the full output list is written into the cache
under that label.  Any raised error aborts the remainder of the run. -/
def runLangs (file : AbsPath) : CodeRunner → Sys → List String →
    CodeRunner × Sys × List Event × Except String Unit
  | r, sys, [] => (r, sys, [], Except.ok ())
  | r, sys, lang :: rest =>
    let cmd := buildQueryCmd file lang sys.cwd
    match sys.typstQuery cmd with
    | Except.error e => (r, sys, [Event.retrieval cmd], Except.error e)
    | Except.ok [] =>
      match runLangs file r sys rest with
      | (r2, sys2, evs, res) => (r2, sys2, Event.retrieval cmd :: evs, res)
    | Except.ok (b :: bs) =>
      match r.exec_blocks_and_capture_outputs sys (b :: bs) lang with
      | (sys1, evs1, Except.error e) => (r, sys1, Event.retrieval cmd :: evs1, Except.error e)
      | (sys1, evs1, Except.ok outputs) =>
        match r.update_cache file lang outputs with
        | Except.error e => (r, sys1, Event.retrieval cmd :: evs1, Except.error e)
        | Except.ok r1 =>
          match runLangs file r1 sys1 rest with
          | (r2, sys2, evs2, res) =>
            (r2, sys2, Event.retrieval cmd :: (evs1 ++ Event.cacheUpdate file lang :: evs2), res)

/-- Embedding of CodeRunner.run: process the labels in order, then save
the cache if asked to and no error aborted the loop. -/
def CodeRunner.run (r : CodeRunner) (sys : Sys) (file : AbsPath) (langs : List String)
    (save : Bool) : CodeRunner × Sys × List Event × Except String Unit :=
  match runLangs file r sys langs with
  | (r1, sys1, evs, Except.error e) => (r1, sys1, evs, Except.error e)
  | (r1, sys1, evs, Except.ok ()) =>
    if save then (r1, r1.save_cache sys1, evs ++ [Event.save], Except.ok ())
    else (r1, sys1, evs, Except.ok ())

/-! ## Specification-level descriptions used by the theorems -/

/-- Sequential interpreted execution of a block list: each block is
parsed and run against the namespace the previous block left behind, and
every block contributes exactly one output value. -/
def pyRunList (parse : String → PySource) : Env → List String → Env × List PyValue
  | env, [] => (env, [])
  | env, code :: rest =>
    match PythonExecuter.call env (parse code) with
    | (env1, v) =>
      match pyRunList parse env1 rest with
      | (env2, vs) => (env2, v :: vs)

/-- The cache contents after update_cache on a key that is inside the
workspace: the entry of the key is created empty if absent, then the
label is bound to the full output list. -/
def cacheAfterUpdate (c : Cache) (key label : String) (outs : List PyValue) : Cache :=
  let c1 := if (lookupA c key).isSome then c else c ++ [(key, [])]
  modifyA (fun m => updA m label outs) c1 key

instance : Inhabited Sys :=
  ⟨{ executer_map := []
     pyEnv := []
     world := { nextId := 0, dirs := [], procs := [] }
     cwd := []
     fs := []
     typstQuery := fun _ => Except.error ""
     pyParse := fun _ => PySource.parsed []
     replRespond := fun _ _ => ""
     runStandalone := fun _ _ => Except.error "" }⟩

instance : Inhabited World := ⟨{ nextId := 0, dirs := [], procs := [] }⟩

/-! ## Concrete scenarios

Closed inputs on which the counterexample and witness theorems evaluate
the embedded code. -/

/-- A configuration entry describing an interactive session with no
transforms, as a user would configure an interactive language. -/
def replConfig : ShellConfig :=
  { repl := true
    command := "R --no-save"
    prompt := some "> "
    preamble := ""
    timeout := 5
    filename := Option.none
    input_transform := Option.none
    output_transform := Option.none }

def c2parse : String → PySource := fun s =>
  if s = "bad(" then PySource.parseError "unexpected EOF while parsing"
  else PySource.parsed [PyStmt.exprS (PyExpr.add (PyExpr.lit (PyValue.int 1)) (PyExpr.lit (PyValue.int 1)))]

def c2r : CodeRunner := { config := [], workspace_dir := ["w"], workspace_cache := [] }

def c2sys : Sys :=
  { executer_map := [("python", Executer.python)]
    pyEnv := []
    world := { nextId := 0, dirs := [], procs := [] }
    cwd := ["w"]
    fs := []
    typstQuery := fun _ => Except.ok []
    pyParse := c2parse
    replRespond := fun _ _ => ""
    runStandalone := fun _ _ => Except.ok "" }

def c3r : CodeRunner :=
  { config := []
    workspace_dir := ["w"]
    workspace_cache := [("doc.typ", [("python", [PyValue.str "old"])])] }

def c3sys : Sys :=
  { executer_map := [("python", Executer.python)]
    pyEnv := []
    world := { nextId := 0, dirs := [], procs := [] }
    cwd := ["w"]
    fs := [(["w", "other.json"], Json.null)]
    typstQuery := fun _ => Except.ok []
    pyParse := fun _ => PySource.parsed []
    replRespond := fun _ _ => ""
    runStandalone := fun _ _ => Except.ok "" }

def c3file : AbsPath := ["w", "doc.typ"]

def c3outs : List String := ["a\n", "2"]

def c4r : CodeRunner :=
  { config := []
    workspace_dir := ["w"]
    workspace_cache :=
      [("doc.typ", [("a", [PyValue.str "2"]), ("b", [PyValue.str "z"])]),
       ("other.typ", [("a", [PyValue.str "q"])])] }

def c4file : AbsPath := ["w", "doc.typ"]

def c4outs : List PyValue := [PyValue.str "a\n", PyValue.str "4"]

def c4r1 : CodeRunner := ((c4r.update_cache c4file "a" c4outs).toOption).getD default

def c5r : CodeRunner := { config := [], workspace_dir := ["w"], workspace_cache := [] }

def c5sys : Sys :=
  { executer_map := []
    pyEnv := []
    world := { nextId := 0, dirs := [], procs := [] }
    cwd := ["w"]
    fs := []
    typstQuery := fun _ => Except.ok ["code"]
    pyParse := fun _ => PySource.parsed []
    replRespond := fun _ _ => ""
    runStandalone := fun _ _ => Except.ok "" }

def c5file : AbsPath := ["w", "doc.typ"]

def c6r : CodeRunner := { config := [], workspace_dir := ["w"], workspace_cache := [] }

def c6sys : Sys :=
  { executer_map := [("python", Executer.python)]
    pyEnv := []
    world := { nextId := 0, dirs := [], procs := [] }
    cwd := ["w"]
    fs := []
    typstQuery := fun _ => Except.ok ["1+1"]
    pyParse := fun _ =>
      PySource.parsed [PyStmt.exprS (PyExpr.add (PyExpr.lit (PyValue.int 1)) (PyExpr.lit (PyValue.int 1)))]
    replRespond := fun _ _ => ""
    runStandalone := fun _ _ => Except.ok "" }

def c6file : AbsPath := ["other", "doc.typ"]

def c6run : CodeRunner × Sys × List Event × Except String Unit :=
  c6r.run c6sys c6file ["python"] true

def c7r1 : CodeRunner :=
  { config := [("r", replConfig)], workspace_dir := ["w"], workspace_cache := [] }

def c7sys0 : Sys :=
  { executer_map := [("python", Executer.python)]
    pyEnv := []
    world := { nextId := 0, dirs := [], procs := [] }
    cwd := ["w"]
    fs := []
    typstQuery := fun _ => Except.ok []
    pyParse := fun _ => PySource.parsed []
    replRespond := fun sid code => toString sid ++ ":" ++ code
    runStandalone := fun _ _ => Except.ok "" }

def c7step1 : Sys × List Event × Except String (List PyValue) :=
  c7r1.exec_blocks_and_capture_outputs c7sys0 ["x"] "r"

def c7sys1 : Sys := c7step1.1

def c7pair2 : CodeRunner × Sys :=
  ((CodeRunner.init c7sys1 ["w"] [("r", replConfig)]).toOption).getD default

def c7r2 : CodeRunner := c7pair2.1

def c7sys2 : Sys := c7pair2.2

def c7step2 : Sys × List Event × Except String (List PyValue) :=
  c7r2.exec_blocks_and_capture_outputs c7sys2 ["y"] "r"

def c8r : CodeRunner := { config := [], workspace_dir := ["w"], workspace_cache := [] }

def c8sys : Sys :=
  { executer_map := []
    pyEnv := []
    world := { nextId := 0, dirs := [], procs := [] }
    cwd := ["elsewhere"]
    fs := []
    typstQuery := fun cmd => Except.ok [cmd]
    pyParse := fun _ => PySource.parsed []
    replRespond := fun _ _ => ""
    runStandalone := fun _ _ => Except.ok "" }

def c8file : AbsPath := ["w", "doc.typ"]

def c9se : ShellExecuter :=
  { language := "r", config := replConfig, repl := some 1, build_dir := some 0 }

def c9w0 : World :=
  { nextId := 2, dirs := [0], procs := [(1, { alive := false, buffer := ["bye"] })] }

def c9w1 : World := ((c9se.cleanup c9w0).toOption).getD default

/-- The ShellExecuter that ShellExecuter.create builds from a repl
configuration: it owns the freshly allocated temporary directory and the
freshly spawned process. -/
def newShellExecuter (sys : Sys) (lang : String) (cfg : ShellConfig) : ShellExecuter :=
  { language := lang
    config := cfg
    repl := some (sys.world.nextId + 1)
    build_dir := some sys.world.nextId }

/-- The system state after exec_blocks_and_capture_outputs constructs and
registers a session executor for a label that only the configuration
knows: the world gains the directory and the process, and the class-level
executor map gains the new executor under the label. -/
def newSessionSys (sys : Sys) (lang : String) (cfg : ShellConfig) : Sys :=
  { sys with
    world :=
      { nextId := sys.world.nextId + 2
        dirs := sys.world.nextId :: sys.world.dirs
        procs := (sys.world.nextId + 1, { alive := true, buffer := [] }) :: sys.world.procs }
    executer_map :=
      updA sys.executer_map lang (Executer.shell (newShellExecuter sys lang cfg)) }

/-! ## Association list lemmas -/

theorem lookupA_updA_self {κ α : Type} [DecidableEq κ] (m : List (κ × α)) (k : κ) (v : α) :
    lookupA (updA m k v) k = some v := by
  induction m with
  | nil => simp [updA, lookupA]
  | cons p rest ih =>
    obtain ⟨a, b⟩ := p
    by_cases h : a = k
    · simp [updA, h, lookupA]
    · simp [updA, h, lookupA, ih]

theorem lookupA_updA_other {κ α : Type} [DecidableEq κ] (m : List (κ × α)) (k k2 : κ) (v : α)
    (h : k2 ≠ k) : lookupA (updA m k v) k2 = lookupA m k2 := by
  induction m with
  | nil => simp [updA, lookupA, Ne.symm h]
  | cons p rest ih =>
    obtain ⟨a, b⟩ := p
    by_cases ha : a = k
    · subst ha
      simp [updA, lookupA, Ne.symm h]
    · by_cases h2 : a = k2 <;> simp [updA, lookupA, ha, h2, h, ih]

theorem lookupA_modifyA_self {κ α : Type} [DecidableEq κ] (f : α → α) (m : List (κ × α)) (k : κ) :
    lookupA (modifyA f m k) k = (lookupA m k).map f := by
  induction m with
  | nil => simp [modifyA, lookupA]
  | cons p rest ih =>
    obtain ⟨a, b⟩ := p
    by_cases h : a = k
    · simp [modifyA, h, lookupA]
    · simp [modifyA, h, lookupA, ih]

theorem lookupA_modifyA_other {κ α : Type} [DecidableEq κ] (f : α → α) (m : List (κ × α))
    (k k2 : κ) (h : k2 ≠ k) : lookupA (modifyA f m k) k2 = lookupA m k2 := by
  induction m with
  | nil => simp [modifyA]
  | cons p rest ih =>
    obtain ⟨a, b⟩ := p
    by_cases ha : a = k
    · subst ha
      simp [modifyA, lookupA, Ne.symm h]
    · by_cases h2 : a = k2 <;> simp [modifyA, lookupA, ha, h2, h, ih]

theorem lookupA_append_of_some {κ α : Type} [DecidableEq κ] {m1 : List (κ × α)} {k : κ} {v : α}
    (m2 : List (κ × α)) (h : lookupA m1 k = some v) : lookupA (m1 ++ m2) k = some v := by
  induction m1 with
  | nil => simp [lookupA] at h
  | cons p rest ih =>
    obtain ⟨a, b⟩ := p
    by_cases ha : a = k
    · simp [lookupA, ha] at h ⊢
      exact h
    · simp [lookupA, ha] at h ⊢
      exact ih h

theorem lookupA_append_of_none {κ α : Type} [DecidableEq κ] {m1 : List (κ × α)} {k : κ}
    (m2 : List (κ × α)) (h : lookupA m1 k = Option.none) :
    lookupA (m1 ++ m2) k = lookupA m2 k := by
  induction m1 with
  | nil => simp [lookupA]
  | cons p rest ih =>
    obtain ⟨a, b⟩ := p
    by_cases ha : a = k
    · simp [lookupA, ha] at h
    · simp [lookupA, ha] at h ⊢
      exact ih h

/-! ## Cache serialization round trip -/

theorem optMapM_map_inverse {α β : Type} (f : α → β) (g : β → Option α)
    (h : ∀ a, g (f a) = some a) : ∀ xs : List α, optMapM g (xs.map f) = some xs := by
  intro xs
  induction xs with
  | nil => rfl
  | cons a l ih => simp [optMapM, h a, ih]

theorem decodeVal_encodeVal (v : PyValue) : decodeVal (encodeVal v) = some v := by
  induction v with
  | none => rfl
  | int n => rfl
  | str s => rfl
  | pairOut s v ih => simp [encodeVal, decodeVal, ih]

theorem decodeOutputs_encodeOutputs (outs : List PyValue) :
    decodeOutputs (encodeOutputs outs) = some outs := by
  simp [encodeOutputs, decodeOutputs, optMapM_map_inverse encodeVal decodeVal decodeVal_encodeVal]

theorem decodeLabelMap_encodeLabelMap (m : LabelMap) :
    decodeLabelMap (encodeLabelMap m) = some m := by
  simp only [encodeLabelMap, decodeLabelMap]
  exact optMapM_map_inverse _ _ (fun p => by simp [decodeOutputs_encodeOutputs]) m

theorem decodeCache_encodeCache (c : Cache) : decodeCache (encodeCache c) = some c := by
  simp only [encodeCache, decodeCache]
  exact optMapM_map_inverse _ _ (fun p => by simp [decodeLabelMap_encodeLabelMap]) c

/-! ## Claim C1 -/

/-- C1: for every source accepted by the interpreted executor, __call__
combines the captured stdout and the stringified trailing-expression
value exactly as stated: no expression value gives stdout alone, empty
stdout gives the stringified value alone, and otherwise the two are
joined with one newline, stdout first. -/
theorem C1_call_combines_stdout_and_value (env : Env) (src : PySource) :
    (PythonExecuter.call env src).2 =
      (if (PythonExecuter.exec_and_maybe_eval_last_line env src).2.2 = PyValue.none then
        PyValue.str (PythonExecuter.exec_and_maybe_eval_last_line env src).2.1
      else if (PythonExecuter.exec_and_maybe_eval_last_line env src).2.1 = "" then
        PyValue.str (pyStr (PythonExecuter.exec_and_maybe_eval_last_line env src).2.2)
      else
        PyValue.str ((PythonExecuter.exec_and_maybe_eval_last_line env src).2.1 ++ "\n" ++
          pyStr (PythonExecuter.exec_and_maybe_eval_last_line env src).2.2)) := by
  rcases h : PythonExecuter.exec_and_maybe_eval_last_line env src with ⟨env1, printed, result⟩
  by_cases hr : result = PyValue.none
  · simp [PythonExecuter.call, h, hr, PythonExecuter.resolve_return_value]
  · by_cases hp : printed = "" <;>
      simp [PythonExecuter.call, h, hr, hp, PythonExecuter.resolve_return_value]

/-! ## Claim C10 -/

/-- C10: on a source that parses to zero statements (the empty string in
particular), __call__ returns the non-empty string the caught IndexError
of the body[-1] lookup is converted to, and no exception escapes. -/
theorem C10_empty_source_yields_error_string (env : Env) :
    PythonExecuter.call env (PySource.parsed []) =
      (env, PyValue.str "Error: list index out of range")
    ∧ ("Error: list index out of range" ≠ "") := by
  exact ⟨rfl, by decide⟩

/-! ## Claim C2 -/

theorem execLoop_python (lang : String) :
    ∀ (blocks : List String) (sys : Sys) (idx : Nat),
      lookupA sys.executer_map lang = some Executer.python →
      (execLoop lang sys idx blocks).2.2 =
        Except.ok (pyRunList sys.pyParse sys.pyEnv blocks).2 := by
  intro blocks
  induction blocks with
  | nil => intro sys idx h; rfl
  | cons code rest ih =>
    intro sys idx h
    rcases hc : PythonExecuter.call sys.pyEnv (sys.pyParse code) with ⟨env1, v⟩
    have ihs := ih { sys with pyEnv := env1 } (idx + 1) h
    rcases hrec : execLoop lang { sys with pyEnv := env1 } (idx + 1) rest with ⟨sys2, evs, res⟩
    rw [hrec] at ihs
    simp only at ihs
    simp [execLoop, h, applyExecuter, hc, hrec, ihs, pyRunList]

theorem pyRunList_length (parse : String → PySource) :
    ∀ (blocks : List String) (env : Env),
      ((pyRunList parse env blocks).2).length = blocks.length := by
  intro blocks
  induction blocks with
  | nil => intro env; rfl
  | cons code rest ih =>
    intro env
    rcases hc : PythonExecuter.call env (parse code) with ⟨env1, v⟩
    simp [pyRunList, hc, ih]

/-- C2: with the built-in python executor registered, running a block
list never raises past a block boundary: the batch yields one output per
block in order, so the blocks after a failing block still execute and
contribute their own output; a block whose text fails to parse yields the
SyntaxError-marker string, and a block that raises at runtime yields a
descriptive error string. -/
theorem C2_interpreted_errors_do_not_abort (r : CodeRunner) (sys : Sys) (blocks : List String)
    (h : lookupA sys.executer_map "python" = some Executer.python) :
    (r.exec_blocks_and_capture_outputs sys blocks "python").2.2 =
      Except.ok (pyRunList sys.pyParse sys.pyEnv blocks).2
    ∧ ((pyRunList sys.pyParse sys.pyEnv blocks).2).length = blocks.length
    ∧ (∀ (env : Env) (msg : String),
        PythonExecuter.call env (PySource.parseError msg) =
          (env, PyValue.str ("SyntaxError: " ++ msg)))
    ∧ (∀ (env : Env) (msg : String),
        PythonExecuter.call env (PySource.parsed [PyStmt.exprS (PyExpr.raiseE msg)]) =
          (env, PyValue.str ("Error: " ++ msg))) := by
  refine ⟨?_, pyRunList_length _ _ _, fun env msg => rfl, fun env msg => rfl⟩
  have hsome : (lookupA sys.executer_map "python").isNone = false := by simp [h]
  simp only [CodeRunner.exec_blocks_and_capture_outputs, hsome, Bool.false_and, if_false]
  exact execLoop_python "python" blocks sys 0 h

theorem C2_witness :
    lookupA c2sys.executer_map "python" = some Executer.python
    ∧ (c2r.exec_blocks_and_capture_outputs c2sys ["bad(", "1+1"] "python").2.2 =
        Except.ok (pyRunList c2sys.pyParse c2sys.pyEnv ["bad(", "1+1"]).2
    ∧ ((pyRunList c2sys.pyParse c2sys.pyEnv ["bad(", "1+1"]).2).length =
        (["bad(", "1+1"] : List String).length
    ∧ PythonExecuter.call [] (PySource.parseError "unexpected EOF while parsing") =
        ([], PyValue.str ("SyntaxError: " ++ "unexpected EOF while parsing"))
    ∧ PythonExecuter.call [] (PySource.parsed [PyStmt.exprS (PyExpr.raiseE "boom")]) =
        ([], PyValue.str ("Error: " ++ "boom")) := by
  have h := C2_interpreted_errors_do_not_abort c2r c2sys ["bad(", "1+1"] rfl
  exact ⟨rfl, h.1, h.2.1, h.2.2.1 [] "unexpected EOF while parsing", h.2.2.2 [] "boom"⟩

/-! ## Claim C3 -/

theorem get_cache_key_ok (r : CodeRunner) (file : AbsPath)
    (h1 : r.workspace_dir <+: file) (h2 : r.workspace_dir ≠ file) :
    r.get_cache_key file =
      Except.ok (String.intercalate "/" (file.drop r.workspace_dir.length)) := by
  simp [CodeRunner.get_cache_key, h1, h2]

theorem get_cache_key_err (r : CodeRunner) (file : AbsPath)
    (h : ¬(r.workspace_dir <+: file ∧ r.workspace_dir ≠ file)) :
    r.get_cache_key file =
      Except.error
        ("File " ++ renderPath file ++ " is not in workspace " ++ renderPath r.workspace_dir) := by
  simp [CodeRunner.get_cache_key, h]

theorem update_cache_eq (r : CodeRunner) (file : AbsPath) (label : String)
    (outs : List PyValue) (key : String) (hk : r.get_cache_key file = Except.ok key) :
    r.update_cache file label outs =
      Except.ok
        { r with workspace_cache := cacheAfterUpdate r.workspace_cache key label outs } := by
  unfold CodeRunner.update_cache CodeRunner.get_cache_value cacheAfterUpdate
  rw [hk]
  by_cases hs : (lookupA r.workspace_cache key).isSome <;> simp [hs]

theorem lookupA_cacheAfterUpdate_self (c : Cache) (key label : String) (outs : List PyValue) :
    (lookupA (cacheAfterUpdate c key label outs) key).bind (fun m => lookupA m label)
      = some outs := by
  unfold cacheAfterUpdate
  rcases ho : lookupA c key with _ | m
  · simp [ho, lookupA_modifyA_self, lookupA_append_of_none [(key, [])] ho, lookupA,
      lookupA_updA_self]
  · simp [ho, lookupA_modifyA_self, lookupA_updA_self]

theorem lookupA_cacheAfterUpdate_other_label (c : Cache) (key label label2 : String)
    (outs : List PyValue) (h : label2 ≠ label) :
    (lookupA (cacheAfterUpdate c key label outs) key).bind (fun m => lookupA m label2)
      = (lookupA c key).bind (fun m => lookupA m label2) := by
  unfold cacheAfterUpdate
  rcases ho : lookupA c key with _ | m
  · simp [ho, lookupA_modifyA_self, lookupA_append_of_none [(key, [])] ho, lookupA,
      lookupA_updA_other _ _ _ _ h, Ne.symm h]
  · simp [ho, lookupA_modifyA_self, lookupA_updA_other _ _ _ _ h]

theorem lookupA_cacheAfterUpdate_other_key (c : Cache) (key key2 label : String)
    (outs : List PyValue) (h : key2 ≠ key) :
    lookupA (cacheAfterUpdate c key label outs) key2 = lookupA c key2 := by
  unfold cacheAfterUpdate
  by_cases hs : (lookupA c key).isSome
  · simp [hs, lookupA_modifyA_other _ _ _ _ h]
  · simp only [hs, if_false, Bool.false_eq_true]
    rw [lookupA_modifyA_other _ _ _ _ h]
    rcases ho2 : lookupA c key2 with _ | v
    · rw [lookupA_append_of_none _ ho2]
      simp [lookupA, Ne.symm h]
    · exact lookupA_append_of_some _ ho2

/-- C3: updating the cache for a document inside the workspace and a
label, saving, and constructing a fresh CodeRunner over the same
workspace yields an in-memory cache whose entry at the cache key of the
document and the label is exactly the stored output list: the write
round-trips through the JSON cache file. -/
theorem C3_cache_round_trip (sys : Sys) (r : CodeRunner) (file : AbsPath) (label : String)
    (outputs : List String) (cfgs : List (String × ShellConfig))
    (h1 : r.workspace_dir <+: file) (h2 : r.workspace_dir ≠ file) :
    (do
      let key ← r.get_cache_key file
      let r1 ← r.update_cache file label (outputs.map PyValue.str)
      let fresh ← CodeRunner.init (r1.save_cache sys) r.workspace_dir cfgs
      Except.ok ((lookupA fresh.1.workspace_cache key).bind fun m => lookupA m label))
    = Except.ok (some (outputs.map PyValue.str)) := by
  have hk := get_cache_key_ok r file h1 h2
  have hu := update_cache_eq r file label (outputs.map PyValue.str)
    (String.intercalate "/" (file.drop r.workspace_dir.length)) hk
  simp [hk, hu, bind, Except.bind, CodeRunner.init, CodeRunner.save_cache,
    lookupA_updA_self, decodeCache_encodeCache, lookupA_cacheAfterUpdate_self]

theorem C3_witness :
    (c3r.workspace_dir <+: c3file)
    ∧ c3r.workspace_dir ≠ c3file
    ∧ (do
        let key ← c3r.get_cache_key c3file
        let r1 ← c3r.update_cache c3file "python" (c3outs.map PyValue.str)
        let fresh ← CodeRunner.init (r1.save_cache c3sys) c3r.workspace_dir []
        Except.ok ((lookupA fresh.1.workspace_cache key).bind fun m => lookupA m "python"))
      = Except.ok (some (c3outs.map PyValue.str)) :=
  ⟨by decide, by decide,
    C3_cache_round_trip c3sys c3r c3file "python" c3outs [] (by decide) (by decide)⟩

/-! ## Claim C4 -/

/-- C4: update_cache fully replaces the stored output list of the given
document and label pair, and leaves every other label of that document
and every other document key untouched. -/
theorem C4_update_replaces_label_and_frames_rest (r : CodeRunner) (file : AbsPath)
    (label : String) (outs : List PyValue) (key : String) (r1 : CodeRunner)
    (hk : r.get_cache_key file = Except.ok key)
    (hu : r.update_cache file label outs = Except.ok r1) :
    ((lookupA r1.workspace_cache key).bind (fun m => lookupA m label) = some outs)
    ∧ (∀ label2, label2 ≠ label →
        (lookupA r1.workspace_cache key).bind (fun m => lookupA m label2)
          = (lookupA r.workspace_cache key).bind (fun m => lookupA m label2))
    ∧ (∀ key2, key2 ≠ key →
        lookupA r1.workspace_cache key2 = lookupA r.workspace_cache key2) := by
  rw [update_cache_eq r file label outs key hk] at hu
  injection hu with hu
  subst hu
  refine ⟨?_, fun label2 h2 => ?_, fun key2 h2 => ?_⟩
  · exact lookupA_cacheAfterUpdate_self r.workspace_cache key label outs
  · exact lookupA_cacheAfterUpdate_other_label r.workspace_cache key label label2 outs h2
  · exact lookupA_cacheAfterUpdate_other_key r.workspace_cache key key2 label outs h2

theorem C4_witness :
    c4r.get_cache_key c4file = Except.ok "doc.typ"
    ∧ c4r.update_cache c4file "a" c4outs = Except.ok c4r1
    ∧ (lookupA c4r1.workspace_cache "doc.typ").bind (fun m => lookupA m "a") = some c4outs
    ∧ ((lookupA c4r1.workspace_cache "doc.typ").bind (fun m => lookupA m "b")
        = (lookupA c4r.workspace_cache "doc.typ").bind (fun m => lookupA m "b"))
    ∧ lookupA c4r1.workspace_cache "other.typ" = lookupA c4r.workspace_cache "other.typ" := by
  have h := C4_update_replaces_label_and_frames_rest c4r c4file "a" c4outs "doc.typ" c4r1 rfl rfl
  exact ⟨rfl, rfl, h.1, h.2.1 "b" (by decide), h.2.2 "other.typ" (by decide)⟩

/-! ## Claim C5 -/

/-- C5: a label with neither a built-in executor nor a configuration
entry, whose retrieval produced at least one block, makes the run fail
with the unsupported-language error; the trace shows the error is raised
before any block of the label executes, and the error aborts the whole
run: no later label is retrieved, no cache update happens and no save
happens. -/
theorem C5_unsupported_language_aborts_run (r : CodeRunner) (sys : Sys) (file : AbsPath)
    (lang : String) (rest : List String) (b : String) (bs : List String) (save : Bool)
    (hmap : lookupA sys.executer_map lang = Option.none)
    (hcfg : lookupA r.config lang = Option.none)
    (hq : sys.typstQuery (buildQueryCmd file lang sys.cwd) = Except.ok (b :: bs)) :
    r.run sys file (lang :: rest) save =
      (r, sys, [Event.retrieval (buildQueryCmd file lang sys.cwd)],
        Except.error ("Language `" ++ lang ++ "` not supported")) := by
  simp [CodeRunner.run, runLangs, hq, CodeRunner.exec_blocks_and_capture_outputs, hmap, hcfg]

theorem C5_witness :
    lookupA c5sys.executer_map "zig" = Option.none
    ∧ lookupA c5r.config "zig" = Option.none
    ∧ c5sys.typstQuery (buildQueryCmd c5file "zig" c5sys.cwd) = Except.ok ["code"]
    ∧ c5r.run c5sys c5file ["zig", "python"] true =
        (c5r, c5sys, [Event.retrieval (buildQueryCmd c5file "zig" c5sys.cwd)],
          Except.error ("Language `" ++ "zig" ++ "` not supported")) :=
  ⟨rfl, rfl, rfl,
    C5_unsupported_language_aborts_run c5r c5sys c5file "zig" ["python"] "code" [] true
      rfl rfl rfl⟩

/-! ## Claim C6 -/

theorem execLoop_no_cacheUpdate (lang : String) :
    ∀ (blocks : List String) (sys : Sys) (idx : Nat) (f : AbsPath) (l : String),
      Event.cacheUpdate f l ∉ (execLoop lang sys idx blocks).2.1 := by
  intro blocks
  induction blocks with
  | nil => intro sys idx f l; simp [execLoop]
  | cons code rest ih =>
    intro sys idx f l
    simp only [execLoop]
    cases hx : lookupA sys.executer_map lang with
    | none => simp
    | some ex =>
      dsimp only
      rcases happ : applyExecuter sys ex code with ⟨sys1, res⟩
      cases res with
      | error e => simp
      | ok v =>
        dsimp only
        rcases hrec : execLoop lang sys1 (idx + 1) rest with ⟨sys2, evs, res2⟩
        have hmem := ih sys1 (idx + 1) f l
        rw [hrec] at hmem
        cases res2 <;> simpa using hmem

theorem exec_blocks_no_cacheUpdate (r : CodeRunner) (sys : Sys) (blocks : List String)
    (lang : String) (f : AbsPath) (l : String) :
    Event.cacheUpdate f l ∉ (r.exec_blocks_and_capture_outputs sys blocks lang).2.1 := by
  unfold CodeRunner.exec_blocks_and_capture_outputs
  cases hc : ((lookupA sys.executer_map lang).isNone && (lookupA r.config lang).isNone) with
  | true => simp [hc]
  | false =>
    simp only [hc, Bool.false_eq_true, if_false]
    exact execLoop_no_cacheUpdate lang blocks _ 0 f l

theorem update_cache_err (r : CodeRunner) (file : AbsPath) (label : String)
    (outs : List PyValue) (h : ¬(r.workspace_dir <+: file ∧ r.workspace_dir ≠ file)) :
    r.update_cache file label outs =
      Except.error
        ("File " ++ renderPath file ++ " is not in workspace " ++ renderPath r.workspace_dir) := by
  unfold CodeRunner.update_cache CodeRunner.get_cache_value
  rw [get_cache_key_err r file h]

theorem runLangs_outside (file : AbsPath) :
    ∀ (langs : List String) (r : CodeRunner) (sys : Sys),
      ¬(r.workspace_dir <+: file ∧ r.workspace_dir ≠ file) →
      (runLangs file r sys langs).1 = r
      ∧ ∀ (f : AbsPath) (l : String),
          Event.cacheUpdate f l ∉ (runLangs file r sys langs).2.2.1 := by
  intro langs
  induction langs with
  | nil => intro r sys h; exact ⟨rfl, by simp [runLangs]⟩
  | cons lang rest ih =>
    intro r sys h
    simp only [runLangs]
    cases hq : sys.typstQuery (buildQueryCmd file lang sys.cwd) with
    | error e => simp
    | ok blocks =>
      cases blocks with
      | nil =>
        rcases hrec : runLangs file r sys rest with ⟨r2, sys2, evs, res⟩
        have hr := ih r sys h
        rw [hrec] at hr
        simpa using hr
      | cons b bs =>
        dsimp only
        rcases hex : r.exec_blocks_and_capture_outputs sys (b :: bs) lang with ⟨sys1, evs1, res⟩
        have hevs : ∀ (f : AbsPath) (l : String), Event.cacheUpdate f l ∉ evs1 := by
          intro f l
          have hx := exec_blocks_no_cacheUpdate r sys (b :: bs) lang f l
          rw [hex] at hx
          simpa using hx
        cases res with
        | error e => simpa using fun f l => hevs f l
        | ok outputs =>
          dsimp only
          rw [update_cache_err r file lang outputs h]
          simpa using fun f l => hevs f l

/-- C6 counterexample: on a concrete document outside the workspace root
the run is not rejected before retrieval and execution: the trace records
the external query and the execution of the first block, and only then
does the run fail with the path-containment error, at cache-update time. -/
theorem C6_counterexample :
    c6run.2.2.1 =
      [Event.retrieval (buildQueryCmd c6file "python" c6sys.cwd),
       Event.execBlock "python" 0]
    ∧ c6run.2.2.2 = Except.error "File /other/doc.typ is not in workspace /w" :=
  ⟨rfl, rfl⟩

/-- C6 amended: for a document outside the workspace root, get_cache_key
always fails with the path-containment error, and a run over that
document never mutates the in-memory cache and never performs a
cache-update step; the rejection however happens at cache-update time,
after block retrieval and execution, not before them. -/
theorem C6_amended_rejection_happens_at_cache_update (r : CodeRunner) (file : AbsPath)
    (h : ¬(r.workspace_dir <+: file ∧ r.workspace_dir ≠ file)) :
    r.get_cache_key file =
      Except.error
        ("File " ++ renderPath file ++ " is not in workspace " ++ renderPath r.workspace_dir)
    ∧ ∀ (sys : Sys) (langs : List String) (save : Bool),
        (r.run sys file langs save).1.workspace_cache = r.workspace_cache
        ∧ ∀ (f : AbsPath) (l : String),
            Event.cacheUpdate f l ∉ (r.run sys file langs save).2.2.1 := by
  refine ⟨get_cache_key_err r file h, fun sys langs save => ?_⟩
  have hrl := runLangs_outside file langs r sys h
  rcases hrec : runLangs file r sys langs with ⟨r1, sys1, evs, res⟩
  rw [hrec] at hrl
  simp only at hrl
  unfold CodeRunner.run
  rw [hrec]
  obtain ⟨hr1, hevs⟩ := hrl
  subst hr1
  cases res with
  | error e => exact ⟨rfl, fun f l => hevs f l⟩
  | ok u =>
    obtain ⟨⟩ := u
    by_cases hsave : save = true
    · subst hsave
      refine ⟨rfl, fun f l => ?_⟩
      simp only [if_true]
      intro hmem
      rcases List.mem_append.mp hmem with hm | hm
      · exact hevs f l hm
      · simp at hm
    · have : save = false := by
        cases save
        · rfl
        · exact absurd rfl hsave
      subst this
      exact ⟨rfl, fun f l => hevs f l⟩

theorem C6_amended_witness :
    ¬(c6r.workspace_dir <+: c6file ∧ c6r.workspace_dir ≠ c6file)
    ∧ c6r.get_cache_key c6file = Except.error "File /other/doc.typ is not in workspace /w"
    ∧ (c6r.run c6sys c6file ["python"] true).1.workspace_cache = c6r.workspace_cache
    ∧ Event.cacheUpdate c6file "python" ∉ (c6r.run c6sys c6file ["python"] true).2.2.1 := by
  have h := C6_amended_rejection_happens_at_cache_update c6r c6file (by decide)
  have h2 := h.2 c6sys ["python"] true
  exact ⟨by decide, h.1, h2.1, h2.2 c6file "python"⟩

/-! ## Claim C7 -/

theorem execLoop_shell (lang : String) (se : ShellExecuter) (sid : Nat)
    (hrepl : se.repl = some sid)
    (hin : se.config.input_transform = Option.none)
    (hout : se.config.output_transform = Option.none) :
    ∀ (blocks : List String) (sys : Sys) (idx : Nat),
      lookupA sys.executer_map lang = some (Executer.shell se) →
      (execLoop lang sys idx blocks).1 = sys
      ∧ (execLoop lang sys idx blocks).2.2 =
          Except.ok (blocks.map fun b => PyValue.str (sys.replRespond sid (b ++ "\n"))) := by
  intro blocks
  induction blocks with
  | nil => intro sys idx h; exact ⟨rfl, rfl⟩
  | cons code rest ih =>
    intro sys idx h
    have happ : applyExecuter sys (Executer.shell se) code =
        (sys, Except.ok (PyValue.str (sys.replRespond sid (code ++ "\n")))) := by
      simp [applyExecuter, ShellExecuter.call, hrepl, hin, hout, applyOutputTransform]
    simp only [execLoop, h]
    rw [happ]
    have ihs := ih sys (idx + 1) h
    rcases hrec : execLoop lang sys (idx + 1) rest with ⟨sys2, evs, res2⟩
    rw [hrec] at ihs
    simp only at ihs
    obtain ⟨ih1, ih2⟩ := ihs
    subst ih1
    dsimp only
    rw [hrec, ih2]
    exact ⟨rfl, by simp⟩

theorem exec_blocks_constructs_session (r : CodeRunner) (sys : Sys) (blocks : List String)
    (lang : String) (cfg : ShellConfig)
    (hmap : lookupA sys.executer_map lang = Option.none)
    (hcfg : lookupA r.config lang = some cfg)
    (hrepl : cfg.repl = true) :
    r.exec_blocks_and_capture_outputs sys blocks lang =
      execLoop lang (newSessionSys sys lang cfg) 0 blocks := by
  unfold CodeRunner.exec_blocks_and_capture_outputs
  simp [hmap, hcfg, ShellExecuter.create, hrepl, newSessionSys, newShellExecuter]

theorem exec_blocks_reuses_executer (r : CodeRunner) (sys : Sys) (blocks : List String)
    (lang : String) (ex : Executer) (hmap : lookupA sys.executer_map lang = some ex) :
    r.exec_blocks_and_capture_outputs sys blocks lang = execLoop lang sys 0 blocks := by
  unfold CodeRunner.exec_blocks_and_capture_outputs
  simp [hmap]

theorem init_preserves_executer_map (sys : Sys) (ws : AbsPath)
    (cfgs : List (String × ShellConfig)) (r2 : CodeRunner) (sys2 : Sys)
    (h : CodeRunner.init sys ws cfgs = Except.ok (r2, sys2)) :
    sys2.executer_map = sys.executer_map := by
  unfold CodeRunner.init at h
  cases hfs : lookupA sys.fs (cacheFilePath ws) with
  | none =>
    rw [hfs] at h
    dsimp only at h
    injection h with h2
    have hsnd := congrArg Prod.snd h2
    simp only at hsnd
    rw [← hsnd]
  | some j =>
    rw [hfs] at h
    dsimp only at h
    cases hdec : decodeCache j with
    | none => rw [hdec] at h; exact absurd h (by simp)
    | some c =>
      rw [hdec] at h
      dsimp only at h
      injection h with h2
      have hsnd := congrArg Prod.snd h2
      simp only at hsnd
      rw [← hsnd]

/-- C7 amended: a session constructed for a label is reused for all
blocks of that label and is recorded only under that label, so it is not
shared with another label (a fresh session id exceeds every id allocated
before); but the executor registry is a class attribute shared by every
CodeRunner in the process, so constructing a fresh runner preserves it,
and any later run of the same label in the same process reuses the very
session created earlier instead of spawning its own. -/
theorem C7_amended_session_per_label_but_shared_across_runs
    (r : CodeRunner) (sys : Sys) (blocks : List String) (lang : String) (cfg : ShellConfig)
    (hmap : lookupA sys.executer_map lang = Option.none)
    (hcfg : lookupA r.config lang = some cfg)
    (hrepl : cfg.repl = true)
    (hin : cfg.input_transform = Option.none)
    (hout : cfg.output_transform = Option.none) :
    ((r.exec_blocks_and_capture_outputs sys blocks lang).2.2 =
        Except.ok (blocks.map fun b =>
          PyValue.str (sys.replRespond (sys.world.nextId + 1) (b ++ "\n"))))
    ∧ ((lookupA (r.exec_blocks_and_capture_outputs sys blocks lang).1.executer_map lang).bind
          Executer.sessionId = some (sys.world.nextId + 1))
    ∧ (∀ l2, l2 ≠ lang →
        lookupA (r.exec_blocks_and_capture_outputs sys blocks lang).1.executer_map l2
          = lookupA sys.executer_map l2)
    ∧ (∀ (l2 : String) (e2 : Executer) (s2 : Nat),
        lookupA sys.executer_map l2 = some e2 → e2.sessionId = some s2 →
        s2 < sys.world.nextId → s2 ≠ sys.world.nextId + 1)
    ∧ (∀ (ws : AbsPath) (cfgs : List (String × ShellConfig)) (r2 : CodeRunner) (sys2 : Sys),
        CodeRunner.init (r.exec_blocks_and_capture_outputs sys blocks lang).1 ws cfgs
            = Except.ok (r2, sys2) →
        sys2.executer_map = (r.exec_blocks_and_capture_outputs sys blocks lang).1.executer_map)
    ∧ (∀ (r3 : CodeRunner) (sys3 : Sys) (blocks3 : List String),
        sys3.executer_map = (r.exec_blocks_and_capture_outputs sys blocks lang).1.executer_map →
        sys3.replRespond = sys.replRespond →
        (r3.exec_blocks_and_capture_outputs sys3 blocks3 lang).2.2 =
          Except.ok (blocks3.map fun b =>
            PyValue.str (sys.replRespond (sys.world.nextId + 1) (b ++ "\n")))) := by
  have hstep := exec_blocks_constructs_session r sys blocks lang cfg hmap hcfg hrepl
  have hlookupN :
      lookupA (newSessionSys sys lang cfg).executer_map lang
        = some (Executer.shell (newShellExecuter sys lang cfg)) := by
    simp [newSessionSys, lookupA_updA_self]
  have hloop := execLoop_shell lang (newShellExecuter sys lang cfg) (sys.world.nextId + 1)
    rfl hin hout blocks (newSessionSys sys lang cfg) 0 hlookupN
  refine ⟨?_, ?_, ?_, ?_, ?_, ?_⟩
  · rw [hstep]
    exact hloop.2
  · rw [hstep, hloop.1, hlookupN]
    rfl
  · intro l2 h2
    rw [hstep, hloop.1]
    simp [newSessionSys, lookupA_updA_other _ _ _ _ h2]
  · intro l2 e2 s2 _ _ hlt
    omega
  · intro ws cfgs r2 sys2 hinit
    exact init_preserves_executer_map _ ws cfgs r2 sys2 hinit
  · intro r3 sys3 blocks3 hmap3 hrr
    have hl3 : lookupA sys3.executer_map lang
        = some (Executer.shell (newShellExecuter sys lang cfg)) := by
      rw [hmap3, hstep, hloop.1]
      exact hlookupN
    have hreuse := exec_blocks_reuses_executer r3 sys3 blocks3 lang _ hl3
    have hloop3 := execLoop_shell lang (newShellExecuter sys lang cfg) (sys.world.nextId + 1)
      rfl hin hout blocks3 sys3 0 hl3
    rw [hreuse, hloop3.2, hrr]

/-- C7 counterexample: a first run over an interactive label creates
session 1 and registers it in the class-level executor map; constructing
a fresh CodeRunner afterwards leaves that map intact, and the fresh
runner executes its blocks against the very session created by the
earlier run (the output names session 1 and no new session is
allocated), so a fresh runner instance does observe a session created by
an earlier one. -/
theorem C7_counterexample_fresh_runner_observes_old_session :
    c7sys0.world.nextId = 0
    ∧ c7sys1.world.nextId = 2
    ∧ (lookupA c7sys1.executer_map "r").bind Executer.sessionId = some 1
    ∧ CodeRunner.init c7sys1 ["w"] [("r", replConfig)] = Except.ok (c7r2, c7sys2)
    ∧ (lookupA c7sys2.executer_map "r").bind Executer.sessionId = some 1
    ∧ c7step2.2.2 = Except.ok [PyValue.str "1:y\n"]
    ∧ c7step2.1.world.nextId = 2 :=
  ⟨rfl, rfl, rfl, rfl, rfl, rfl, rfl⟩

theorem C7_amended_witness :
    lookupA c7sys0.executer_map "r" = Option.none
    ∧ lookupA c7r1.config "r" = some replConfig
    ∧ replConfig.repl = true
    ∧ replConfig.input_transform = Option.none
    ∧ replConfig.output_transform = Option.none
    ∧ (c7r1.exec_blocks_and_capture_outputs c7sys0 ["x"] "r").2.2 =
        Except.ok (["x"].map fun b =>
          PyValue.str (c7sys0.replRespond (c7sys0.world.nextId + 1) (b ++ "\n")))
    ∧ (lookupA (c7r1.exec_blocks_and_capture_outputs c7sys0 ["x"] "r").1.executer_map "r").bind
        Executer.sessionId = some (c7sys0.world.nextId + 1)
    ∧ lookupA (c7r1.exec_blocks_and_capture_outputs c7sys0 ["x"] "r").1.executer_map "python"
        = lookupA c7sys0.executer_map "python"
    ∧ (c7r2.exec_blocks_and_capture_outputs c7sys2 ["y"] "r").2.2 =
        Except.ok (["y"].map fun b =>
          PyValue.str (c7sys0.replRespond (c7sys0.world.nextId + 1) (b ++ "\n"))) := by
  have h := C7_amended_session_per_label_but_shared_across_runs c7r1 c7sys0 ["x"] "r"
    replConfig rfl rfl rfl rfl rfl
  exact ⟨rfl, rfl, rfl, rfl, rfl, h.1, h.2.1,
    h.2.2.1 "python" (by decide), h.2.2.2.2.2 c7r2 c7sys2 ["y"] rfl rfl⟩

/-! ## Claim C8 -/

/-- C8 counterexample: a runner constructed over workspace root /w but
running in a process whose current working directory is /elsewhere hands
the query tool the root /elsewhere, not the root it was constructed
with; the echoing query oracle exposes the exact command line. -/
theorem C8_counterexample_query_root_is_cwd_not_workspace :
    c8r.get_labeled_blocks c8sys c8file "python" =
      Except.ok
        ["typst query \"/w/doc.typ\" \"<python>\" --field value --format json --root /elsewhere"]
    ∧ buildQueryCmd c8file "python" c8sys.cwd ≠ buildQueryCmd c8file "python" c8r.workspace_dir
    ∧ c8sys.cwd ≠ c8r.workspace_dir := by
  refine ⟨rfl, by decide, by decide⟩

/-- C8 amended: get_labeled_blocks invokes the external tool with the
document path, the selector of the form angle-bracketed label, the value
field, the json format, and the process current working directory as the
root (not the workspace root the runner was constructed with: the result
is independent of the constructed workspace directory), and returns the
parsed array-of-strings result of the tool. -/
theorem C8_amended_query_uses_cwd_as_root (r : CodeRunner) (sys : Sys) (file : AbsPath)
    (label : String) :
    r.get_labeled_blocks sys file label =
      sys.typstQuery
        ("typst query \"" ++ renderPath file ++ "\" \"<" ++ label ++ ">\"" ++
          " --field value --format json --root " ++ renderPath sys.cwd)
    ∧ (∀ ws2 : AbsPath,
        CodeRunner.get_labeled_blocks { r with workspace_dir := ws2 } sys file label
          = r.get_labeled_blocks sys file label) :=
  ⟨rfl, fun _ => rfl⟩

/-! ## Claim C9 -/

/-- C9: teardown is not idempotent.  A first cleanup of a stopped session
drains the remaining output and removes the build directory; invoking
cleanup again on the now fully torn-down session raises the EOF error of
the drain read (and rmdir would likewise raise FileNotFoundError) instead
of being a no-op: cleanup never clears the repl and build_dir fields. -/
theorem C9_cleanup_not_idempotent :
    c9se.cleanup c9w0 = Except.ok c9w1
    ∧ c9w1.dirs = []
    ∧ lookupA c9w1.procs 1 = some { alive := false, buffer := [] }
    ∧ c9se.repl = some 1
    ∧ c9se.build_dir = some 0
    ∧ c9se.cleanup c9w1 = Except.error "EOF: End Of File (EOF)." :=
  ⟨rfl, rfl, rfl, rfl, rfl, rfl⟩
